import Mathlib

/-!
Shallow embedding of `src/math_quiz_bot.py`, a Telegram arithmetic-quiz bot.

Each asynchronous handler of the source is modelled as a pure function from
the relevant state to the new state together with the list of messages it
sends.  The platform binding (Telegram API objects, message ids, markup) is
out of scope; a sent message is modelled by an `Out` value carrying the
semantic payload.  Times (`time.time()` differences) are modelled as `ℚ`;
Python `int()` applied to a nonnegative float is `Int.floor`.  The asyncio
event of a round is modelled as `Option Bool` (`none` = no event object yet,
`some b` = an event whose fired flag is `b`); `event.set()` maps the flag to
`true`, `event.clear()` to `false`.  Each handler body of the source runs
atomically between `await` points under cooperative single-threaded
scheduling, so an interleaving of handlers is a sequence of applications of
these functions.
-/

namespace MathQuizBot

/-- Game constant, line 25 of the source: seconds per question. -/
def DEFAULT_TIMEOUT_PER_Q : ℚ := 20

/-- Game constant, line 26: base points for a correct answer. -/
def POINTS_CORRECT : ℤ := 100

/-- Game constant, line 27: maximal speed bonus. -/
def POINTS_PER_SECOND_SPEED_BONUS_MAX : ℚ := 50

/-- Game constant, line 28: bonus per streak level. -/
def STREAK_BONUS_PER_LEVEL : ℤ := 10

/-- One generated question (dict built at lines 81-86). -/
structure QuestionT where
  text : String
  answer : ℤ
  qtype : String
  difficulty : String
  deriving DecidableEq, Repr

/-- One entry of `quiz["scores"]` (line 52 and line 258). -/
structure PlayerScore where
  points : ℤ
  streak : ℕ
  username : String
  deriving DecidableEq, Repr

/-- `quiz["scores"]`: a Python dict from user id to `PlayerScore`.  A dict
iterates its keys in insertion order, so it is embedded as an association
list whose keys are unique and whose order is the insertion order. -/
abbrev Scores := List (ℕ × PlayerScore)

/-- First-match association-list lookup: dict access for unique keys. -/
def lookupScore : Scores → ℕ → Option PlayerScore
  | [], _ => none
  | kv :: rest, uid => if kv.1 = uid then some kv.2 else lookupScore rest uid

/-- In-place update of the entry of `user_id` (dict item assignment). -/
def mapEntry (s : Scores) (user_id : ℕ) (f : PlayerScore → PlayerScore) : Scores :=
  s.map (fun kv => if kv.1 = user_id then (kv.1, f kv.2) else kv)

/-- Lines 257-258: create the entry of `user_id` with zero points and zero
streak when it is absent; a dict inserts a fresh key at the end. -/
def ensureEntry (s : Scores) (user_id : ℕ) (username : String) : Scores :=
  if lookupScore s user_id = none then s ++ [(user_id, ⟨0, 0, username⟩)] else s

/-- Line 259: unconditionally refresh the stored display name. -/
def withUsername (s : Scores) (user_id : ℕ) (username : String) : Scores :=
  mapEntry s user_id (fun p => { p with username := username })

/-- Lines 281-283: reset the streak of every player other than the winner. -/
def resetOtherStreaks (s : Scores) (user_id : ℕ) : Scores :=
  s.map (fun kv => if kv.1 = user_id then kv else (kv.1, { kv.2 with streak := 0 }))

/-- Lines 353-354: reset the streak of every player (timeout). -/
def resetAllStreaks (s : Scores) : Scores :=
  s.map (fun kv => (kv.1, { kv.2 with streak := 0 }))

/-- Points of `user_id`, zero when absent (a dict `.get` default view). -/
def priorPointsOf (s : Scores) (user_id : ℕ) : ℤ :=
  ((lookupScore s user_id).map PlayerScore.points).getD 0

/-- Streak of `user_id`, zero when absent (`.get("streak", 0)`, line 265). -/
def priorStreakOf (s : Scores) (user_id : ℕ) : ℕ :=
  ((lookupScore s user_id).map PlayerScore.streak).getD 0

/-- The per-chat quiz dict (lines 41-55).  Keys the source leaves absent
until later phases are `Option`; `config` is flattened into its two keys. -/
structure Quiz where
  status : String
  host_id : ℕ
  difficulty : Option String := none
  num_questions : Option ℕ := none
  active : Bool
  questions_data : List QuestionT := []
  current_q_index : Option ℤ := none
  current_question_details : Option QuestionT := none
  q_start_time : Option ℚ := none
  first_answerer_id : Option ℕ := none
  scores : Scores := []
  current_question_event : Option Bool := none
  deriving DecidableEq, Repr

/-- The process-wide registry `quizzes` (line 40): chat id to quiz. -/
abbrev Quizzes := ℕ → Option Quiz

/-- Pointwise registry update: dict assignment or deletion at one key. -/
def Quizzes.set (qs : Quizzes) (gid : ℕ) (v : Option Quiz) : Quizzes :=
  fun g => if g = gid then v else qs g

/-- The semantic payload of each message the bot sends.  Literal wording and
markup are platform concerns and are not modelled. -/
inductive Out where
  | alreadyRunning
  | setupPrompt (host : ℕ)
  | difficultyPrompt (difficultyValue : String)
  | setupComplete (difficultyValue : String) (num_questions : ℕ)
  | setupCancelled
  | configDenied
  | configAlreadyDone
  | correctAnswer (user_id : ℕ) (username : String) (answer : ℤ)
      (points_earned : ℤ) (total : ℤ)
  | timesUp (answer : ℤ)
  | leaderboard (mid_quiz : Bool) (finalRender : Bool) (rows : Scores)
  | congrats (winner : String)
  | noScoresRecorded
  | noQuizToStop
  | stopDenied
  | stoppedBy (name : String)
  deriving DecidableEq, Repr

/-- A pseudo-random source: an infinite supply of naturals and a cursor.
Each call of `random.randint` or `random.choice` consumes one value. -/
structure RNG where
  seq : ℕ → ℕ
  pos : ℕ

/-- Consume one value of the supply. -/
def RNG.take (g : RNG) : ℕ × RNG :=
  (g.seq g.pos, { g with pos := g.pos + 1 })

/-- `random.randint(lo, hi)`: both bounds inclusive. -/
def randint (lo hi : ℕ) (g : RNG) : ℕ × RNG :=
  let (r, g1) := g.take
  (lo + r % (hi + 1 - lo), g1)

/-- The two operators of line 68, `random.choice(["+", "-"])`. -/
inductive Op where
  | add
  | sub
  deriving DecidableEq, Repr

/-- Render an operator as the source writes it into the expression. -/
def Op.symbol : Op → String
  | .add => "+"
  | .sub => "-"

/-- Left-to-right application of one operator. -/
def Op.apply : Op → ℤ → ℤ → ℤ
  | .add, a, b => a + b
  | .sub, a, b => a - b

/-- `random.choice(["+", "-"])`: one supply value picks the operator. -/
def choiceOp (g : RNG) : Op × RNG :=
  let (r, g1) := g.take
  (if r % 2 = 0 then Op.add else Op.sub, g1)

/-- `generate_math_question` (lines 59-86): three operands from a
difficulty-dependent range, two operators, a left-to-right expression.  The
source computes the answer with `eval` on the rendered expression, which for
`a op b op c` with `+`/`-` is exactly left-to-right integer evaluation and
never raises, so the `except` fallback of lines 74-79 is dead code and is
not modelled. -/
def generate_math_question (difficulty : String) (g : RNG) : QuestionT × RNG :=
  let lo := if difficulty = "easy" then 1 else if difficulty = "medium" then 10 else 20
  let hi := if difficulty = "easy" then 25 else if difficulty = "medium" then 75 else 150
  let (n1, g1) := randint lo hi g
  let (n2, g2) := randint lo hi g1
  let (n3, g3) := randint lo hi g2
  let (o1, g4) := choiceOp g3
  let (o2, g5) := choiceOp g4
  let expression :=
    toString n1 ++ " " ++ o1.symbol ++ " " ++ toString n2 ++ " " ++ o2.symbol ++ " " ++ toString n3
  let answer := o2.apply (o1.apply (n1 : ℤ) (n2 : ℤ)) (n3 : ℤ)
  ({ text := "What is " ++ expression ++ "?",
     answer := answer,
     qtype := "math_text",
     difficulty := difficulty }, g5)

/-- The list comprehension of line 209: `num_questions` sequential calls of
`generate_math_question`, threading the random source. -/
def genQuestions (difficulty : String) : ℕ → RNG → List QuestionT × RNG
  | 0, g => ([], g)
  | n + 1, g =>
    let r1 := generate_math_question difficulty g
    let r2 := genQuestions difficulty n r1.2
    (r1.1 :: r2.1, r2.2)

/-- Whitespace removed by Python `str.strip()`. -/
def isPySpace (c : Char) : Bool :=
  c = ' ' || c = '\t' || c = '\n' || c = '\r' || c = '\x0b' || c = '\x0c'

/-- `str.strip()` on a character list. -/
def pyStripList (cs : List Char) : List Char :=
  ((cs.dropWhile isPySpace).reverse.dropWhile isPySpace).reverse

/-- A nonempty all-digit run read as a natural number. -/
def parseDigits (cs : List Char) : Option ℕ :=
  if cs ≠ [] ∧ cs.all Char.isDigit then
    some (cs.foldl (fun a c => a * 10 + (c.toNat - 48)) 0)
  else none

/-- `int(text.strip())` of line 246, returning `none` where Python raises
`ValueError`/`TypeError`: optional sign followed by ASCII digits, after
stripping surrounding whitespace.  (Digit-group underscores and non-ASCII
digits, which Python also accepts, are not modelled; no claim depends on
such inputs.) -/
def parseIntPy (s : String) : Option ℤ :=
  match pyStripList s.toList with
  | '-' :: rest => (parseDigits rest).map (fun n => -(n : ℤ))
  | '+' :: rest => (parseDigits rest).map (fun n => (n : ℤ))
  | cs => (parseDigits cs).map (fun n => (n : ℤ))

/-- Line 262: `max(0, (DEFAULT_TIMEOUT_PER_Q - time_taken) / DEFAULT_TIMEOUT_PER_Q)`. -/
def time_bonus_factor (time_taken : ℚ) : ℚ :=
  max 0 ((DEFAULT_TIMEOUT_PER_Q - time_taken) / DEFAULT_TIMEOUT_PER_Q)

/-- Line 263: `int(POINTS_PER_SECOND_SPEED_BONUS_MAX * time_bonus_factor)`.
Python `int()` truncates toward zero; the operand is nonnegative (it is
`50 * max(0, _)`), so truncation is the floor. -/
def speed_bonus (time_taken : ℚ) : ℤ :=
  ⌊POINTS_PER_SECOND_SPEED_BONUS_MAX * time_bonus_factor time_taken⌋

/-- The scoring computation of lines 262-269, factored: from the elapsed
time and the prior streak of the answerer, the earned points and the new
streak.  `current_streak = prior + 1`, `streak_bonus = (current_streak - 1) * 10`,
`points_earned = 100 + speed_bonus + streak_bonus`. -/
def score (time_taken : ℚ) (prior_streak : ℕ) : ℤ × ℕ :=
  let current_streak := prior_streak + 1
  (POINTS_CORRECT + speed_bonus time_taken
     + ((current_streak : ℤ) - 1) * STREAK_BONUS_PER_LEVEL,
   current_streak)

/-- Modelled from the spec: section 4.2 gives the speed bonus as
`round(maxSpeedBonus * max(0, (timeoutSeconds - elapsedSeconds) / timeoutSeconds))`
with rounding, where the source truncates.  This definition follows the
words of the spec and exists only to be compared with `score`. -/
def score_spec (elapsedSeconds : ℚ) (currentStreak : ℕ) : ℤ × ℕ :=
  (POINTS_CORRECT
     + round (POINTS_PER_SECOND_SPEED_BONUS_MAX
         * max 0 ((DEFAULT_TIMEOUT_PER_Q - elapsedSeconds) / DEFAULT_TIMEOUT_PER_Q))
     + (currentStreak : ℤ) * STREAK_BONUS_PER_LEVEL,
   currentStreak + 1)

/-- Stable insertion of one entry into a points-descending list: walk past
entries with strictly more points and stop before the first entry with at
most as many, so an entry inserted later never overtakes an equal-points
entry inserted earlier. -/
def insertDesc (x : ℕ × PlayerScore) : Scores → Scores
  | [] => [x]
  | y :: ys => if x.2.points < y.2.points then y :: insertDesc x ys else x :: y :: ys

/-- Line 374, `sorted(scores.items(), key=points, reverse=True)`: the stable
points-descending sort of the insertion-ordered entries.  Python `sorted`
is stable and `reverse=True` keeps the original order of equal keys, which
this insertion sort reproduces exactly. -/
def sortScoresDesc : Scores → Scores
  | [] => []
  | x :: xs => insertDesc x (sortScoresDesc xs)

/-- The fresh quiz dict of lines 100-105: configuring, not active, empty
config.  All other keys are absent until later phases. -/
def freshConfiguring (host_id : ℕ) : Quiz :=
  { status := "configuring", host_id := host_id, active := false }

/-- `quiz_command` (lines 90-120): reject when the chat already has a quiz
whose `active` flag is set, otherwise install a fresh configuring quiz
(overwriting whatever non-active quiz the chat had) and send the setup
prompt.  The stored setup message id is platform state and not modelled. -/
def quiz_command (qs : Quizzes) (gid uid : ℕ) : Quizzes × List Out :=
  match qs gid with
  | some quiz =>
    if quiz.active then (qs, [Out.alreadyRunning])
    else (qs.set gid (some (freshConfiguring uid)), [Out.setupPrompt uid])
  | none => (qs.set gid (some (freshConfiguring uid)), [Out.setupPrompt uid])

/-- `_is_admin` (lines 399-408): every user counts as admin in a private
chat; otherwise the platform-reported member status decides, and a failed
lookup (the `except` branch) reports `none` and yields `false`. -/
def _is_admin (chat_type : String) (member_status : Option String) : Bool :=
  if chat_type = "private" then true
  else
    match member_status with
    | some s => s = "administrator" || s = "creator"
    | none => false

/-- `show_leaderboard` (lines 366-396): nothing when the quiz is gone or has
an empty scores dict, except that a final rendering then sends the
no-scores notice (lines 369-372); otherwise one leaderboard message with
the ten best rows of the stable descending sort, and on a final rendering a
congratulation for the first row.  The `if not sorted_scores` branch of
lines 384-385 is unreachable (`scores` nonempty makes the sort nonempty)
and adds no message here. -/
def show_leaderboard (quiz? : Option Quiz) (mid_quiz finalRender : Bool) : List Out :=
  match quiz? with
  | none => if finalRender then [Out.noScoresRecorded] else []
  | some quiz =>
    if quiz.scores = [] then
      if finalRender then [Out.noScoresRecorded] else []
    else
      let sorted_scores := sortScoresDesc quiz.scores
      Out.leaderboard mid_quiz finalRender (sorted_scores.take 10) ::
        (if finalRender then
          match sorted_scores with
          | w :: _ => [Out.congrats w.2.username]
          | [] => []
        else [])

/-- `stop_quiz` (lines 123-152): nothing to stop, or an access check (host
or admin), then deactivate, mark stopped, fire the round event, announce the
stop, show the final leaderboard when scores exist (the quiz is still in the
registry at that point), and delete the chat entry. -/
def stop_quiz (qs : Quizzes) (gid uid : ℕ) (stopper_name : String)
    (chat_type : String) (member_status : Option String) : Quizzes × List Out :=
  match qs gid with
  | none => (qs, [Out.noQuizToStop])
  | some quiz =>
    if uid ≠ quiz.host_id ∧ _is_admin chat_type member_status = false then
      (qs, [Out.stopDenied])
    else
      let quiz1 := { quiz with
        active := false,
        status := "stopped",
        current_question_event := quiz.current_question_event.map (fun _ => true) }
      let outs :=
        Out.stoppedBy stopper_name ::
          (if quiz1.scores ≠ [] then show_leaderboard (some quiz1) false true else [])
      (qs.set gid none, outs)

/-- The choices a setup button press can carry, the split of line 176. -/
inductive CfgChoice where
  | cancel
  | difficultyChoice (value : String)
  | questionsChoice (value : ℕ)
  | back
  deriving DecidableEq, Repr

/-- `handle_config_callback` (lines 156-229): only the host may act, only in
the configuring state.  Choosing the question count (lines 200-224) stores
it, generates every question up front, resets the round index to `-1`,
installs an empty scores dict and a fresh unfired event, and flips the quiz
to active; the quiz loop task it spawns afterwards is a separate
interleaving and not part of this step.  The back action restarts the setup
flow through `quiz_command` (lines 226-229).  Reads of
`quiz["config"]["difficulty"]` before the difficulty was chosen would raise
in the source; the flow only offers the count buttons after the difficulty
step, and the model reads the empty string there. -/
def handle_config_callback (qs : Quizzes) (gid uid : ℕ) (choice : CfgChoice)
    (g : RNG) : Quizzes × List Out :=
  match qs gid with
  | none => (qs, [Out.configDenied])
  | some quiz =>
    if uid ≠ quiz.host_id then (qs, [Out.configDenied])
    else if quiz.status ≠ "configuring" then (qs, [Out.configAlreadyDone])
    else
      match choice with
      | .cancel => (qs.set gid none, [Out.setupCancelled])
      | .difficultyChoice d =>
        (qs.set gid (some { quiz with difficulty := some d }), [Out.difficultyPrompt d])
      | .questionsChoice n =>
        let d := quiz.difficulty.getD ""
        let questions := (genQuestions d n g).1
        let quiz1 := { quiz with
          num_questions := some n,
          status := "active",
          active := true,
          questions_data := questions,
          current_q_index := some (-1),
          scores := [],
          current_question_event := some false }
        (qs.set gid (some quiz1), [Out.setupComplete d n])
      | .back => quiz_command qs gid uid

/-- The score-dict mutation and announcement of a first correct answer,
lines 253-286 after the equality test: create or refresh the entry of the
answerer, score against the prior streak read back from the dict, write the
new streak, add the earned points, announce with the running total read
back from the dict, reset every other streak, lock the round and fire the
event. -/
def applyCorrect (quiz : Quiz) (qd : QuestionT) (user_id : ℕ) (username : String)
    (time_taken : ℚ) : Quiz × List Out :=
  let s1 := withUsername (ensureEntry quiz.scores user_id username) user_id username
  let pe := score time_taken (priorStreakOf s1 user_id)
  let s2 := mapEntry s1 user_id (fun p => { p with streak := pe.2 })
  let s3 := mapEntry s2 user_id (fun p => { p with points := p.points + pe.1 })
  let s4 := resetOtherStreaks s3 user_id
  ({ quiz with
      first_answerer_id := some user_id,
      scores := s4,
      current_question_event := quiz.current_question_event.map (fun _ => true) },
   [Out.correctAnswer user_id username qd.answer pe.1 (priorPointsOf s3 user_id)])

/-- `handle_text_answer` (lines 233-286): ignore the message unless the quiz
exists, is active, the round is not locked and the round clock is running;
ignore non-integer text; ignore a wrong value; otherwise apply the
first-correct-answer path.  In the source the question details are always
present once `q_start_time` is set, so the wildcard row is unreachable
there. -/
def handle_text_answer (quiz? : Option Quiz) (user_id : ℕ) (username : String)
    (text : String) (now : ℚ) : Option Quiz × List Out :=
  match quiz? with
  | none => (none, [])
  | some quiz =>
    if quiz.active = false ∨ quiz.first_answerer_id ≠ none ∨ quiz.q_start_time = none then
      (some quiz, [])
    else
      match parseIntPy text, quiz.current_question_details, quiz.q_start_time with
      | some user_answer, some qd, some t0 =>
        if user_answer = qd.answer then
          let r := applyCorrect quiz qd user_id username (now - t0)
          (some r.1, r.2)
        else (some quiz, [])
      | _, _, _ => (some quiz, [])

/-- `end_question_by_timeout` (lines 341-363), the body after the sleep: a
stale or resolved round (quiz gone, inactive, round moved on, or locked by a
first answerer) is a no-op; otherwise reset every streak, announce the
answer and fire the event.  The announcement reads the current question
details, which are always present here in the source. -/
def end_question_by_timeout (quiz? : Option Quiz) (q_index : ℤ) : Option Quiz × List Out :=
  match quiz? with
  | none => (none, [])
  | some quiz =>
    if quiz.active = false ∨ quiz.current_q_index ≠ some q_index ∨
        quiz.first_answerer_id ≠ none then
      (some quiz, [])
    else
      (some { quiz with
          scores := resetAllStreaks quiz.scores,
          current_question_event := quiz.current_question_event.map (fun _ => true) },
       [Out.timesUp (((quiz.current_question_details).map QuestionT.answer).getD 0)])

/-- Decidable restatement of the miss condition of claim C3: the text does
not parse to the stored correct answer (it fails to parse, or parses to a
different integer). -/
def answerMisses (quiz : Quiz) (text : String) : Bool :=
  match quiz.current_question_details, parseIntPy text with
  | some qd, some v => v ≠ qd.answer
  | _, _ => true

/-! ## Lookup lemmas for the score-dict operations -/

theorem lookupScore_append (s : Scores) (x : ℕ × PlayerScore) (v : ℕ) :
    lookupScore (s ++ [x]) v =
      ((lookupScore s v).or (if x.1 = v then some x.2 else none)) := by
  induction s with
  | nil => simp [lookupScore]
  | cons y ys ih =>
    by_cases h : y.1 = v
    · simp [lookupScore, h]
    · simpa [lookupScore, h] using ih

theorem lookupScore_mapEntry_self (s : Scores) (uid : ℕ)
    (f : PlayerScore → PlayerScore) :
    lookupScore (mapEntry s uid f) uid = (lookupScore s uid).map f := by
  induction s with
  | nil => simp [lookupScore, mapEntry]
  | cons y ys ih =>
    obtain ⟨k, p⟩ := y
    by_cases h : k = uid
    · subst h
      simp [lookupScore, mapEntry]
    · simpa [lookupScore, mapEntry, h] using ih

theorem lookupScore_mapEntry_ne (s : Scores) (uid v : ℕ)
    (f : PlayerScore → PlayerScore) (h : v ≠ uid) :
    lookupScore (mapEntry s uid f) v = lookupScore s v := by
  induction s with
  | nil => simp [lookupScore, mapEntry]
  | cons y ys ih =>
    obtain ⟨k, p⟩ := y
    by_cases h1 : k = uid
    · subst h1
      simpa [lookupScore, mapEntry, Ne.symm h] using ih
    · by_cases h2 : k = v
      · subst h2
        simp [lookupScore, mapEntry, h1]
      · simpa [lookupScore, mapEntry, h1, h2] using ih

theorem lookupScore_ensure_self (s : Scores) (uid : ℕ) (name : String) :
    lookupScore (ensureEntry s uid name) uid =
      some ((lookupScore s uid).getD ⟨0, 0, name⟩) := by
  cases h : lookupScore s uid with
  | none => simp [ensureEntry, h, lookupScore_append]
  | some p => simp [ensureEntry, h]

theorem lookupScore_ensure_ne (s : Scores) (uid v : ℕ) (name : String)
    (h : v ≠ uid) :
    lookupScore (ensureEntry s uid name) v = lookupScore s v := by
  cases h1 : lookupScore s uid with
  | none => simp [ensureEntry, h1, lookupScore_append, Ne.symm h]
  | some p => simp [ensureEntry, h1]

theorem lookupScore_resetOther_self (s : Scores) (uid : ℕ) :
    lookupScore (resetOtherStreaks s uid) uid = lookupScore s uid := by
  induction s with
  | nil => simp [lookupScore, resetOtherStreaks]
  | cons y ys ih =>
    obtain ⟨k, p⟩ := y
    by_cases h : k = uid
    · subst h
      simp [lookupScore, resetOtherStreaks]
    · simpa [lookupScore, resetOtherStreaks, h] using ih

theorem lookupScore_resetOther_ne (s : Scores) (uid v : ℕ) (h : v ≠ uid) :
    lookupScore (resetOtherStreaks s uid) v =
      (lookupScore s v).map (fun p => { p with streak := 0 }) := by
  induction s with
  | nil => simp [lookupScore, resetOtherStreaks]
  | cons y ys ih =>
    obtain ⟨k, p⟩ := y
    by_cases h1 : k = uid
    · subst h1
      simpa [lookupScore, resetOtherStreaks, Ne.symm h] using ih
    · by_cases h2 : k = v
      · subst h2
        simp [lookupScore, resetOtherStreaks, h1]
      · simpa [lookupScore, resetOtherStreaks, h1, h2] using ih

theorem lookupScore_resetAll (s : Scores) (v : ℕ) :
    lookupScore (resetAllStreaks s) v =
      (lookupScore s v).map (fun p => { p with streak := 0 }) := by
  induction s with
  | nil => simp [lookupScore, resetAllStreaks]
  | cons y ys ih =>
    obtain ⟨k, p⟩ := y
    by_cases h : k = v
    · subst h
      simp [lookupScore, resetAllStreaks]
    · simpa [lookupScore, resetAllStreaks, h] using ih

/-! ## Characterization of the first-correct-answer path -/

theorem score_snd (e : ℚ) (s : ℕ) : (score e s).2 = s + 1 := rfl

theorem priorStreak_after_ensure_username (s : Scores) (uid : ℕ) (name : String) :
    priorStreakOf (withUsername (ensureEntry s uid name) uid name) uid =
      priorStreakOf s uid := by
  unfold priorStreakOf withUsername
  rw [lookupScore_mapEntry_self, lookupScore_ensure_self]
  cases h : lookupScore s uid <;> simp [h]

theorem applyCorrect_first (quiz : Quiz) (qd : QuestionT) (uid : ℕ) (name : String)
    (e : ℚ) : (applyCorrect quiz qd uid name e).1.first_answerer_id = some uid := by
  simp [applyCorrect]

theorem applyCorrect_frame (quiz : Quiz) (qd : QuestionT) (uid : ℕ) (name : String)
    (e : ℚ) :
    (applyCorrect quiz qd uid name e).1.active = quiz.active ∧
    (applyCorrect quiz qd uid name e).1.status = quiz.status ∧
    (applyCorrect quiz qd uid name e).1.q_start_time = quiz.q_start_time ∧
    (applyCorrect quiz qd uid name e).1.current_q_index = quiz.current_q_index ∧
    (applyCorrect quiz qd uid name e).1.current_question_details =
      quiz.current_question_details := by
  simp [applyCorrect]

theorem applyCorrect_lookup_self (quiz : Quiz) (qd : QuestionT) (uid : ℕ)
    (name : String) (e : ℚ) :
    lookupScore (applyCorrect quiz qd uid name e).1.scores uid =
      some ⟨priorPointsOf quiz.scores uid + (score e (priorStreakOf quiz.scores uid)).1,
            priorStreakOf quiz.scores uid + 1, name⟩ := by
  simp only [applyCorrect]
  rw [lookupScore_resetOther_self, lookupScore_mapEntry_self, lookupScore_mapEntry_self,
    priorStreak_after_ensure_username]
  unfold withUsername
  rw [lookupScore_mapEntry_self, lookupScore_ensure_self]
  cases h : lookupScore quiz.scores uid <;>
    simp [h, priorPointsOf, priorStreakOf, score_snd]

theorem applyCorrect_lookup_other (quiz : Quiz) (qd : QuestionT) (uid : ℕ)
    (name : String) (e : ℚ) (v : ℕ) (h : v ≠ uid) :
    lookupScore (applyCorrect quiz qd uid name e).1.scores v =
      (lookupScore quiz.scores v).map (fun p => { p with streak := 0 }) := by
  simp only [applyCorrect]
  rw [lookupScore_resetOther_ne _ _ _ h, lookupScore_mapEntry_ne _ _ _ _ h,
    lookupScore_mapEntry_ne _ _ _ _ h]
  unfold withUsername
  rw [lookupScore_mapEntry_ne _ _ _ _ h, lookupScore_ensure_ne _ _ _ _ h]

theorem applyCorrect_out (quiz : Quiz) (qd : QuestionT) (uid : ℕ) (name : String)
    (e : ℚ) :
    (applyCorrect quiz qd uid name e).2 =
      [Out.correctAnswer uid name qd.answer (score e (priorStreakOf quiz.scores uid)).1
        (priorPointsOf quiz.scores uid + (score e (priorStreakOf quiz.scores uid)).1)] := by
  simp only [applyCorrect]
  rw [priorStreak_after_ensure_username]
  unfold priorPointsOf
  rw [lookupScore_mapEntry_self]
  conv_lhs => rw [lookupScore_mapEntry_self]
  unfold withUsername
  rw [lookupScore_mapEntry_self, lookupScore_ensure_self]
  cases h : lookupScore quiz.scores uid <;>
    simp [h, priorPointsOf, priorStreakOf]

/-- The whole accepted-answer step: under the guards of lines 240-252 a
first correct answer runs `applyCorrect` on the elapsed time. -/
theorem handle_text_answer_correct (quiz : Quiz) (qd : QuestionT) (uid : ℕ)
    (name text : String) (now t0 : ℚ)
    (hact : quiz.active = true) (hfa : quiz.first_answerer_id = none)
    (hst : quiz.q_start_time = some t0)
    (hqd : quiz.current_question_details = some qd)
    (hp : parseIntPy text = some qd.answer) :
    handle_text_answer (some quiz) uid name text now =
      (some (applyCorrect quiz qd uid name (now - t0)).1,
       (applyCorrect quiz qd uid name (now - t0)).2) := by
  simp [handle_text_answer, hact, hfa, hst, hqd, hp]

/-- C3: for every submitted answer that does not parse as an integer, or
parses to a value different from the correct answer of the current question,
`handle_text_answer` is a no-op: the quiz (so in particular
`first_answerer_id` and every entry of `scores`) is returned unchanged and
nothing is sent.  The hypothesis `answerMisses` is the decidable statement
that the text does not name the stored correct answer. -/
theorem C3_wrong_or_unparseable_answer_is_noop (quiz : Quiz) (uid : ℕ)
    (name text : String)
    (now : ℚ) (h : answerMisses quiz text = true) :
    handle_text_answer (some quiz) uid name text now = (some quiz, []) := by
  unfold handle_text_answer
  by_cases hg : quiz.active = false ∨ quiz.first_answerer_id ≠ none ∨
      quiz.q_start_time = none
  · simp [hg]
  · simp only [if_neg hg]
    unfold answerMisses at h
    cases hp : parseIntPy text with
    | none =>
      cases hqd : quiz.current_question_details with
      | none => cases hst : quiz.q_start_time <;> simp [hp, hqd, hst]
      | some qd => cases hst : quiz.q_start_time <;> simp [hp, hqd, hst]
    | some v =>
      cases hqd : quiz.current_question_details with
      | none => cases hst : quiz.q_start_time <;> simp [hp, hqd, hst]
      | some qd =>
        rw [hqd, hp] at h
        simp only [ne_eq, decide_eq_true_eq] at h
        cases hst : quiz.q_start_time <;> simp [hp, hqd, hst, h]

/-- The firing branch of the timeout watcher: a live, current, unlocked
round is resolved by the timeout. -/
theorem end_question_by_timeout_fires (quiz : Quiz) (i : ℤ)
    (hact : quiz.active = true) (hidx : quiz.current_q_index = some i)
    (hfa : quiz.first_answerer_id = none) :
    end_question_by_timeout (some quiz) i =
      (some { quiz with
          scores := resetAllStreaks quiz.scores,
          current_question_event := quiz.current_question_event.map (fun _ => true) },
       [Out.timesUp (((quiz.current_question_details).map QuestionT.answer).getD 0)]) := by
  simp [end_question_by_timeout, hact, hidx, hfa]

/-! ## The stable descending sort of the leaderboard -/

theorem insertDesc_perm (x : ℕ × PlayerScore) (l : Scores) :
    List.Perm (insertDesc x l) (x :: l) := by
  induction l with
  | nil => simp [insertDesc]
  | cons y ys ih =>
    unfold insertDesc
    split
    · exact (ih.cons y).trans (List.Perm.swap x y ys)
    · exact List.Perm.refl _

theorem insertDesc_pairwise (x : ℕ × PlayerScore) (l : Scores)
    (h : l.Pairwise (fun a b => b.2.points ≤ a.2.points)) :
    (insertDesc x l).Pairwise (fun a b => b.2.points ≤ a.2.points) := by
  induction l with
  | nil => simp [insertDesc]
  | cons y ys ih =>
    rw [List.pairwise_cons] at h
    obtain ⟨hy, hys⟩ := h
    unfold insertDesc
    split
    · next hx =>
      rw [List.pairwise_cons]
      refine ⟨fun z hz => ?_, ih hys⟩
      rcases List.mem_cons.mp (((insertDesc_perm x ys).mem_iff).mp hz) with hzx | hzys
      · subst hzx
        exact le_of_lt hx
      · exact hy z hzys
    · next hx =>
      rw [List.pairwise_cons]
      refine ⟨fun z hz => ?_, List.pairwise_cons.mpr ⟨hy, hys⟩⟩
      rcases List.mem_cons.mp hz with hzy | hzys
      · subst hzy
        exact le_of_not_lt hx
      · exact le_trans (hy z hzys) (le_of_not_lt hx)

theorem sortScoresDesc_perm (l : Scores) : List.Perm (sortScoresDesc l) l := by
  induction l with
  | nil => simp [sortScoresDesc]
  | cons x xs ih => exact (insertDesc_perm x (sortScoresDesc xs)).trans (ih.cons x)

theorem sortScoresDesc_pairwise (l : Scores) :
    (sortScoresDesc l).Pairwise (fun a b => b.2.points ≤ a.2.points) := by
  induction l with
  | nil => simp [sortScoresDesc]
  | cons x xs ih => exact insertDesc_pairwise x (sortScoresDesc xs) ih

theorem insertDesc_filter_self (x : ℕ × PlayerScore) (l : Scores) :
    (insertDesc x l).filter (fun e => e.2.points == x.2.points) =
      x :: l.filter (fun e => e.2.points == x.2.points) := by
  induction l with
  | nil => simp [insertDesc]
  | cons y ys ih =>
    unfold insertDesc
    split
    · next hx =>
      have hne : (y.2.points == x.2.points) = false := by
        simp only [beq_eq_false_iff_ne, ne_eq]
        omega
      simp [List.filter_cons, hne, ih]
    · next hx =>
      simp [List.filter_cons]

theorem insertDesc_filter_ne (x : ℕ × PlayerScore) (l : Scores) (v : ℤ)
    (h : x.2.points ≠ v) :
    (insertDesc x l).filter (fun e => e.2.points == v) =
      l.filter (fun e => e.2.points == v) := by
  have hxf : (x.2.points == v) = false := by
    simp only [beq_eq_false_iff_ne, ne_eq]
    exact h
  induction l with
  | nil => simp [insertDesc, hxf]
  | cons y ys ih =>
    unfold insertDesc
    split
    · next hx =>
      simp [List.filter_cons, ih]
    · next hx =>
      simp [List.filter_cons, hxf]

theorem sortScoresDesc_filter (l : Scores) (v : ℤ) :
    (sortScoresDesc l).filter (fun e => e.2.points == v) =
      l.filter (fun e => e.2.points == v) := by
  induction l with
  | nil => simp [sortScoresDesc]
  | cons x xs ih =>
    unfold sortScoresDesc
    by_cases hx : x.2.points = v
    · subst hx
      rw [insertDesc_filter_self, ih, List.filter_cons]
      simp
    · rw [insertDesc_filter_ne _ _ _ hx, ih, List.filter_cons]
      have hxf : (x.2.points == v) = false := by
        simp only [beq_eq_false_iff_ne, ne_eq]
        exact hx
      simp [hxf]

theorem genQuestions_length (difficulty : String) (n : ℕ) (g : RNG) :
    (genQuestions difficulty n g).1.length = n := by
  induction n generalizing g with
  | zero => simp [genQuestions]
  | succ m ih => simp [genQuestions, ih]

/-! ## Concrete values of the scoring function -/

theorem speed_bonus_at_zero : speed_bonus 0 = 50 := by
  unfold speed_bonus time_bonus_factor DEFAULT_TIMEOUT_PER_Q POINTS_PER_SECOND_SPEED_BONUS_MAX
  rw [show ((20:ℚ) - 0) / 20 = 1 by norm_num,
    show max (0:ℚ) 1 = 1 from max_eq_right (by norm_num),
    show (50:ℚ) * 1 = ((50:ℤ) : ℚ) by norm_num]
  exact Int.floor_intCast 50

theorem speed_bonus_at_21 : speed_bonus 21 = 0 := by
  unfold speed_bonus time_bonus_factor DEFAULT_TIMEOUT_PER_Q POINTS_PER_SECOND_SPEED_BONUS_MAX
  rw [show max (0:ℚ) ((20 - 21) / 20) = 0 from max_eq_left (by norm_num), mul_zero]
  exact Int.floor_zero

theorem speed_bonus_at_tenth : speed_bonus (1/10) = 49 := by
  unfold speed_bonus time_bonus_factor DEFAULT_TIMEOUT_PER_Q POINTS_PER_SECOND_SPEED_BONUS_MAX
  rw [show max (0:ℚ) ((20 - 1/10) / 20) = (20 - 1/10) / 20 from max_eq_right (by norm_num),
    show (50:ℚ) * ((20 - 1/10) / 20) = ((199:ℤ) : ℚ) / ((4:ℕ) : ℚ) by push_cast; norm_num,
    Rat.floor_intCast_div_natCast]
  decide

theorem score_at_zero : score 0 0 = (150, 1) := by
  unfold score POINTS_CORRECT STREAK_BONUS_PER_LEVEL
  rw [speed_bonus_at_zero]
  norm_num

theorem score_at_21 : score 21 0 = (100, 1) := by
  unfold score POINTS_CORRECT STREAK_BONUS_PER_LEVEL
  rw [speed_bonus_at_21]
  norm_num

theorem score_at_tenth : score (1/10) 0 = (149, 1) := by
  unfold score POINTS_CORRECT STREAK_BONUS_PER_LEVEL
  rw [speed_bonus_at_tenth]
  norm_num

theorem score_spec_at_tenth : score_spec (1/10) 0 = (150, 1) := by
  unfold score_spec POINTS_CORRECT STREAK_BONUS_PER_LEVEL
  unfold POINTS_PER_SECOND_SPEED_BONUS_MAX DEFAULT_TIMEOUT_PER_Q
  rw [show max (0:ℚ) ((20 - 1/10) / 20) = (20 - 1/10) / 20 from max_eq_right (by norm_num),
    show (50:ℚ) * ((20 - 1/10) / 20) = 199/4 by norm_num,
    round_eq, show (199/4 + 1/2 : ℚ) = ((201:ℤ) : ℚ) / ((4:ℕ) : ℚ) by push_cast; norm_num,
    Rat.floor_intCast_div_natCast]
  decide

theorem priorStreakOf_resetAll (s : Scores) (uid : ℕ) :
    priorStreakOf (resetAllStreaks s) uid = 0 := by
  unfold priorStreakOf
  rw [lookupScore_resetAll]
  cases h : lookupScore s uid <;> simp

theorem priorPointsOf_resetAll (s : Scores) (uid : ℕ) :
    priorPointsOf (resetAllStreaks s) uid = priorPointsOf s uid := by
  unfold priorPointsOf
  rw [lookupScore_resetAll]
  cases h : lookupScore s uid <;> simp

/-! ## Concrete fixtures used by witnesses and counterexamples -/

/-- A mid-round question with answer 6. -/
def q6 : QuestionT :=
  { text := "What is 1 + 2 + 3?", answer := 6, qtype := "math_text", difficulty := "easy" }

/-- An active quiz in the middle of round 0, clock started, round unlocked,
no scores yet: the state right after the loop body of lines 300-315. -/
def roundQuiz : Quiz :=
  { status := "active", host_id := 1, difficulty := some "easy",
    num_questions := some 5, active := true, questions_data := [q6],
    current_q_index := some 0, current_question_details := some q6,
    q_start_time := some 100, first_answerer_id := none, scores := [],
    current_question_event := some false }

/-- Like `roundQuiz` but with an existing score entry for player 7. -/
def timeoutQuiz : Quiz :=
  { roundQuiz with scores := [(7, ⟨50, 2, "eve"⟩)] }

/-- A mid-round quiz with two scored players, used to watch the frame of a
first correct answer. -/
def twoPlayerQuiz : Quiz :=
  { roundQuiz with scores := [(1, ⟨200, 3, "al"⟩), (2, ⟨120, 1, "bea"⟩)] }

/-- A registry whose chat 0 holds a configuring (not active) session. -/
def cfgReg : Quizzes := fun g => if g = 0 then some (freshConfiguring 1) else none

/-- A registry whose chat 0 holds an active mid-round session. -/
def activeReg : Quizzes := fun g => if g = 0 then some roundQuiz else none

/-- A configuring session whose difficulty step is done. -/
def wizQuiz : Quiz := { freshConfiguring 1 with difficulty := some "easy" }

/-- A registry whose chat 0 holds `wizQuiz`. -/
def wizReg : Quizzes := fun g => if g = 0 then some wizQuiz else none

/-- A registry whose chat 0 holds an active quiz with one scored player. -/
def stopReg : Quizzes := fun g => if g = 0 then some timeoutQuiz else none

/-- The tie example of the spec: A and B share 300 points, C has 100. -/
def exScores : Scores := [(1, ⟨300, 0, "A"⟩), (2, ⟨300, 0, "B"⟩), (3, ⟨100, 0, "C"⟩)]

/-- An active quiz holding `exScores`. -/
def exQuiz : Quiz := { status := "active", host_id := 1, active := true, scores := exScores }

/-- An active quiz with an empty scores dict. -/
def emptyQuiz : Quiz := { status := "active", host_id := 1, active := true }

/-! ## The claims -/

/-- C1: the spec demands that exactly one of the correct-answer and times-up
announcements is emitted per round and that a cause arriving after the round
signal fired is a no-op.  The code violates this: the timeout watcher fires
the signal without locking the round (`first_answerer_id` stays `none` and
`q_start_time` stays set), so a correct answer arriving in the window after
the times-up announcement and before the loop resets the round state is
still accepted and announced.  This theorem runs that interleaving on a
concrete mid-round state: the timeout announces times-up, then the same
round also announces a winner. -/
theorem C1_timeout_then_answer_double_announcement :
    (end_question_by_timeout (some roundQuiz) 0).2 = [Out.timesUp 6] ∧
    (handle_text_answer (end_question_by_timeout (some roundQuiz) 0).1
        42 "bob" "6" 121).2 =
      [Out.correctAnswer 42 "bob" 6 100 100] := by
  have ht := end_question_by_timeout_fires roundQuiz 0 rfl rfl rfl
  have h1 : (end_question_by_timeout (some roundQuiz) 0).1 =
      some { roundQuiz with
        scores := resetAllStreaks roundQuiz.scores,
        current_question_event := roundQuiz.current_question_event.map (fun _ => true) } := by
    rw [ht]
  refine ⟨by rw [ht]; rfl, ?_⟩
  have hc := handle_text_answer_correct
    { roundQuiz with
      scores := resetAllStreaks roundQuiz.scores,
      current_question_event := roundQuiz.current_question_event.map (fun _ => true) }
    q6 42 "bob" "6" 121 100 rfl rfl rfl rfl (by decide)
  rw [h1, hc, applyCorrect_out]
  rw [show (121 : ℚ) - 100 = 21 by norm_num]
  norm_num [roundQuiz, resetAllStreaks, priorStreakOf, priorPointsOf, lookupScore,
    score_at_21, q6]

/-- C2 counterexample: at elapsed time 1/10 of a second and prior streak 0
the code awards 149 points (truncating 49.75), while the formula of the
claim, with `round` as the spec writes it, gives 150.  So the claimed
equality `pointsEarned = 100 + round(50 * max(0, (20 - e) / 20)) + s * 10`
fails at `e = 1/10`, `s = 0`. -/
theorem C2_round_vs_truncation_cex :
    score (1/10) 0 = (149, 1) ∧ score_spec (1/10) 0 = (150, 1) ∧
    score (1/10) 0 ≠ score_spec (1/10) 0 := by
  refine ⟨score_at_tenth, score_spec_at_tenth, ?_⟩
  rw [score_at_tenth, score_spec_at_tenth]
  decide

/-- C2 (amended): the code truncates the speed bonus (Python `int()`, the
floor of the nonnegative operand) instead of rounding it: for every elapsed
time and prior streak, `score` yields
`pointsEarned = 100 + floor(50 * max(0, (20 - e) / 20)) + s * 10` and
`newStreak = s + 1`; in particular `score 0 0 = (150, 1)`.  The first
correct answer of a round credits exactly these points on top of the prior
total of the answerer. -/
theorem C2_scoring_formula_with_truncation (quiz : Quiz) (qd : QuestionT)
    (uid : ℕ) (name text : String) (now t0 : ℚ)
    (hact : quiz.active = true) (hfa : quiz.first_answerer_id = none)
    (hst : quiz.q_start_time = some t0)
    (hqd : quiz.current_question_details = some qd)
    (hp : parseIntPy text = some qd.answer) :
    (∀ e : ℚ, ∀ s : ℕ, score e s =
      (100 + ⌊(50 : ℚ) * max 0 ((20 - e) / 20)⌋ + (s : ℤ) * 10, s + 1)) ∧
    score 0 0 = (150, 1) ∧
    ∃ quiz2, (handle_text_answer (some quiz) uid name text now).1 = some quiz2 ∧
      lookupScore quiz2.scores uid =
        some ⟨priorPointsOf quiz.scores uid +
                (100 + ⌊(50 : ℚ) * max 0 ((20 - (now - t0)) / 20)⌋
                  + (priorStreakOf quiz.scores uid : ℤ) * 10),
              priorStreakOf quiz.scores uid + 1, name⟩ := by
  have hform : ∀ e : ℚ, ∀ s : ℕ, score e s =
      (100 + ⌊(50 : ℚ) * max 0 ((20 - e) / 20)⌋ + (s : ℤ) * 10, s + 1) := by
    intro e s
    simp only [score, speed_bonus, time_bonus_factor, POINTS_CORRECT,
      POINTS_PER_SECOND_SPEED_BONUS_MAX, DEFAULT_TIMEOUT_PER_Q,
      STREAK_BONUS_PER_LEVEL, Prod.mk.injEq]
    refine ⟨?_, by simp⟩
    push_cast
    ring
  refine ⟨hform, score_at_zero, ?_⟩
  have hh := handle_text_answer_correct quiz qd uid name text now t0 hact hfa hst hqd hp
  refine ⟨(applyCorrect quiz qd uid name (now - t0)).1, by rw [hh], ?_⟩
  rw [applyCorrect_lookup_self, hform]

/-- C2 witness: the instant-answer value of the claim, extracted from the
amended theorem applied at a concrete first correct answer. -/
theorem C2_score_at_zero_witness : score 0 0 = (150, 1) :=
  (C2_scoring_formula_with_truncation roundQuiz q6 42 "bob" "6" 121 100
    rfl rfl rfl rfl (by decide)).2.1

/-- C3 witness: on a concrete mid-round state, the unparseable text "abc"
and the numerically wrong answer "7" both leave the quiz untouched and send
nothing. -/
theorem C3_noop_witness :
    handle_text_answer (some roundQuiz) 5 "ann" "abc" 105 = (some roundQuiz, []) ∧
    handle_text_answer (some roundQuiz) 5 "ann" "7" 105 = (some roundQuiz, []) :=
  ⟨C3_wrong_or_unparseable_answer_is_noop roundQuiz 5 "ann" "abc" 105 (by decide),
   C3_wrong_or_unparseable_answer_is_noop roundQuiz 5 "ann" "7" 105 (by decide)⟩

/-- C4: when the first correct answer of a round arrives from user `uid`,
afterwards the round is locked on `uid`, the streak of `uid` grew by one,
the points of `uid` grew by the earned amount, and every other player kept
their points and has streak 0. -/
theorem C4_first_correct_answer_frame (quiz : Quiz) (qd : QuestionT) (uid : ℕ)
    (name text : String) (now t0 : ℚ)
    (hact : quiz.active = true) (hfa : quiz.first_answerer_id = none)
    (hst : quiz.q_start_time = some t0)
    (hqd : quiz.current_question_details = some qd)
    (hp : parseIntPy text = some qd.answer) :
    ∃ quiz2, (handle_text_answer (some quiz) uid name text now).1 = some quiz2 ∧
      quiz2.first_answerer_id = some uid ∧
      lookupScore quiz2.scores uid =
        some ⟨priorPointsOf quiz.scores uid +
                (score (now - t0) (priorStreakOf quiz.scores uid)).1,
              priorStreakOf quiz.scores uid + 1, name⟩ ∧
      ∀ v, v ≠ uid → lookupScore quiz2.scores v =
        (lookupScore quiz.scores v).map (fun p => { p with streak := 0 }) := by
  have hh := handle_text_answer_correct quiz qd uid name text now t0 hact hfa hst hqd hp
  exact ⟨(applyCorrect quiz qd uid name (now - t0)).1, by rw [hh],
    applyCorrect_first quiz qd uid name (now - t0),
    applyCorrect_lookup_self quiz qd uid name (now - t0),
    fun v hv => applyCorrect_lookup_other quiz qd uid name (now - t0) v hv⟩

/-- C4 witness: player 2 of a two-player quiz answers first; the lock, the
update of player 2 and the frame on player 1 follow from the theorem at this
concrete input. -/
theorem C4_frame_witness :
    ∃ quiz2, (handle_text_answer (some twoPlayerQuiz) 2 "bea" "6" 110).1 = some quiz2 ∧
      quiz2.first_answerer_id = some 2 ∧
      lookupScore quiz2.scores 2 =
        some ⟨priorPointsOf twoPlayerQuiz.scores 2 +
                (score ((110 : ℚ) - 100) (priorStreakOf twoPlayerQuiz.scores 2)).1,
              priorStreakOf twoPlayerQuiz.scores 2 + 1, "bea"⟩ ∧
      ∀ v, v ≠ 2 → lookupScore quiz2.scores v =
        (lookupScore twoPlayerQuiz.scores v).map (fun p => { p with streak := 0 }) :=
  C4_first_correct_answer_frame twoPlayerQuiz q6 2 "bea" "6" 110 100
    rfl rfl rfl rfl (by decide)

/-- C5 counterexample: chat 0 holds a session that is present and was never
stopped (its status is "configuring"), yet the start-setup command is not
rejected: it replaces the session with a fresh one for the new host.  This
falsifies the claim that a new session is created only when the prior one is
absent or explicitly stopped and that otherwise the command is rejected with
the existing session unchanged. -/
theorem C5_configuring_session_replaced_cex :
    cfgReg 0 = some (freshConfiguring 1) ∧
    (freshConfiguring 1).status = "configuring" ∧
    (freshConfiguring 1).status ≠ "stopped" ∧
    (quiz_command cfgReg 0 9).2 = [Out.setupPrompt 9] ∧
    (quiz_command cfgReg 0 9).1 0 = some (freshConfiguring 9) ∧
    freshConfiguring 9 ≠ freshConfiguring 1 := by
  decide

/-- C5 (amended): the registry is a map, so a chat holds at most one session
at a time and the command touches no other chat; the start-setup command is
rejected (and the registry unchanged) exactly when the existing session of
the chat has its `active` flag set, and otherwise — prior session absent or
not active, which includes a session still configuring — it installs a fresh
configuring session for the caller. -/
theorem C5_start_setup_rejects_only_active (qs : Quizzes) (gid uid : ℕ) :
    (∀ quiz, qs gid = some quiz → quiz.active = true →
      quiz_command qs gid uid = (qs, [Out.alreadyRunning])) ∧
    ((qs gid = none ∨ ∃ quiz, qs gid = some quiz ∧ quiz.active = false) →
      (quiz_command qs gid uid).1 gid = some (freshConfiguring uid) ∧
      (quiz_command qs gid uid).2 = [Out.setupPrompt uid]) ∧
    (∀ g, g ≠ gid → (quiz_command qs gid uid).1 g = qs g) := by
  refine ⟨?_, ?_, ?_⟩
  · intro quiz hq ha
    simp [quiz_command, hq, ha]
  · rintro (hnone | ⟨quiz, hq, ha⟩)
    · simp [quiz_command, hnone, Quizzes.set]
    · simp [quiz_command, hq, ha, Quizzes.set]
  · intro g hg
    cases hq : qs gid with
    | none => simp [quiz_command, hq, Quizzes.set, hg]
    | some quiz =>
      by_cases ha : quiz.active
      · simp [quiz_command, hq, ha]
      · simp [quiz_command, hq, ha, Quizzes.set, hg]

/-- C5 witness: a chat with an active session rejects the command and keeps
the registry unchanged. -/
theorem C5_active_rejected_witness :
    quiz_command activeReg 0 7 = (activeReg, [Out.alreadyRunning]) :=
  (C5_start_setup_rejects_only_active activeReg 0 7).1 roundQuiz rfl rfl

/-- C6: for a nonempty scores dict the leaderboard shows the rows of the
stable points-descending sort capped at ten: at most ten rows, sorted by
points descending, a permutation of the entries, and entries with any given
points value appear in their original insertion order (the filter of the
sort at each value equals the filter of the input).  On the tie example
{A:300, B:300, C:100} inserted in that order, the ranking is A, B, C. -/
theorem C6_leaderboard_sorted_stable_top10 (quiz : Quiz) (mid fin : Bool)
    (h : quiz.scores ≠ []) :
    (∃ rest, show_leaderboard (some quiz) mid fin =
      Out.leaderboard mid fin ((sortScoresDesc quiz.scores).take 10) :: rest) ∧
    ((sortScoresDesc quiz.scores).take 10).length ≤ 10 ∧
    ((sortScoresDesc quiz.scores).take 10).Pairwise
      (fun a b => b.2.points ≤ a.2.points) ∧
    List.Perm (sortScoresDesc quiz.scores) quiz.scores ∧
    (∀ v, (sortScoresDesc quiz.scores).filter (fun e => e.2.points == v) =
      quiz.scores.filter (fun e => e.2.points == v)) ∧
    sortScoresDesc exScores = exScores := by
  refine ⟨?_, List.length_take_le _ _,
    (sortScoresDesc_pairwise _).sublist (List.take_sublist _ _),
    sortScoresDesc_perm _, fun v => sortScoresDesc_filter _ v, by decide⟩
  simp only [show_leaderboard]
  rw [if_neg h]
  exact ⟨_, rfl⟩

/-- C6 witness: the tie example, extracted from the theorem at a concrete
quiz that holds it. -/
theorem C6_tie_example_witness : sortScoresDesc exScores = exScores :=
  (C6_leaderboard_sorted_stable_top10 exQuiz true false (by decide)).2.2.2.2.2

/-- C7: completing wizard step 2 with a question count `n` on a configuring
session of the host generates all `n` questions up front: afterwards the
stored session is active, its questions list has length exactly `n`, its
round index is -1 and its scores dict is empty. -/
theorem C7_questions_choice_activates (qs : Quizzes) (gid uid n : ℕ) (g : RNG)
    (quiz : Quiz) (h1 : qs gid = some quiz) (h2 : quiz.host_id = uid)
    (h3 : quiz.status = "configuring") :
    ∃ quiz1, (handle_config_callback qs gid uid (CfgChoice.questionsChoice n) g).1 gid =
        some quiz1 ∧
      quiz1.status = "active" ∧ quiz1.active = true ∧
      quiz1.questions_data.length = n ∧
      quiz1.num_questions = some n ∧
      quiz1.current_q_index = some (-1) ∧
      quiz1.scores = [] := by
  have hmain : (handle_config_callback qs gid uid (CfgChoice.questionsChoice n) g).1 gid =
      some { quiz with
        num_questions := some n,
        status := "active",
        active := true,
        questions_data := (genQuestions (quiz.difficulty.getD "") n g).1,
        current_q_index := some (-1),
        scores := [],
        current_question_event := some false } := by
    simp [handle_config_callback, h1, h2, h3, Quizzes.set]
  exact ⟨_, hmain, rfl, rfl, genQuestions_length _ n g, rfl, rfl, rfl⟩

/-- C7 witness: five questions on the easy wizard session of chat 0. -/
theorem C7_five_questions_witness :
    ∃ quiz1, (handle_config_callback wizReg 0 1 (CfgChoice.questionsChoice 5)
        ⟨fun _ => 0, 0⟩).1 0 = some quiz1 ∧
      quiz1.status = "active" ∧ quiz1.active = true ∧
      quiz1.questions_data.length = 5 ∧
      quiz1.num_questions = some 5 ∧
      quiz1.current_q_index = some (-1) ∧
      quiz1.scores = [] :=
  C7_questions_choice_activates wizReg 0 1 5 ⟨fun _ => 0, 0⟩ wizQuiz rfl rfl rfl

/-- C8 counterexample: a mid-quiz rendering with an empty scores dict sends
nothing at all — no placeholder message — falsifying the claim that the
placeholder is emitted for both mid-quiz and final renderings. -/
theorem C8_mid_quiz_no_placeholder_cex :
    emptyQuiz.scores = [] ∧ show_leaderboard (some emptyQuiz) true false = [] := by
  decide

/-- C8 (amended): with an empty scores dict the no-scores placeholder is
emitted only by the final rendering; the mid-quiz rendering emits nothing. -/
theorem C8_empty_scores_placeholder_only_final (quiz : Quiz)
    (h : quiz.scores = []) :
    show_leaderboard (some quiz) false true = [Out.noScoresRecorded] ∧
    show_leaderboard (some quiz) true false = [] := by
  constructor <;> simp [show_leaderboard, h]

/-- C8 witness: the amended behaviour at the concrete empty-scores quiz. -/
theorem C8_placeholder_witness :
    show_leaderboard (some emptyQuiz) false true = [Out.noScoresRecorded] ∧
    show_leaderboard (some emptyQuiz) true false = [] :=
  C8_empty_scores_placeholder_only_final emptyQuiz rfl

/-- C9: after a round resolved by timeout (which leaves `first_answerer_id`
unset and `q_start_time` running, resetting only the streaks), a correct
answer for the already-announced question is still accepted: it is scored
against the reset streak, the answerer gets the points and streak 1, the
round locks on the answerer, and a winner announcement is sent. -/
theorem C9_correct_answer_accepted_after_timeout (quiz : Quiz) (qd : QuestionT)
    (i : ℤ) (uid : ℕ) (name text : String) (now t0 : ℚ)
    (hact : quiz.active = true) (hidx : quiz.current_q_index = some i)
    (hfa : quiz.first_answerer_id = none) (hst : quiz.q_start_time = some t0)
    (hqd : quiz.current_question_details = some qd)
    (hp : parseIntPy text = some qd.answer) :
    (end_question_by_timeout (some quiz) i).2 = [Out.timesUp qd.answer] ∧
    ∃ quiz2,
      (handle_text_answer (end_question_by_timeout (some quiz) i).1
          uid name text now).1 = some quiz2 ∧
      (handle_text_answer (end_question_by_timeout (some quiz) i).1
          uid name text now).2 =
        [Out.correctAnswer uid name qd.answer (score (now - t0) 0).1
          (priorPointsOf quiz.scores uid + (score (now - t0) 0).1)] ∧
      quiz2.first_answerer_id = some uid ∧
      lookupScore quiz2.scores uid =
        some ⟨priorPointsOf quiz.scores uid + (score (now - t0) 0).1, 1, name⟩ := by
  have ht := end_question_by_timeout_fires quiz i hact hidx hfa
  have h1 : (end_question_by_timeout (some quiz) i).1 =
      some { quiz with
        scores := resetAllStreaks quiz.scores,
        current_question_event := quiz.current_question_event.map (fun _ => true) } := by
    rw [ht]
  refine ⟨by rw [ht]; simp [hqd], ?_⟩
  have hc := handle_text_answer_correct
    { quiz with
      scores := resetAllStreaks quiz.scores,
      current_question_event := quiz.current_question_event.map (fun _ => true) }
    qd uid name text now t0 hact hfa hst hqd hp
  refine ⟨(applyCorrect
      { quiz with
        scores := resetAllStreaks quiz.scores,
        current_question_event := quiz.current_question_event.map (fun _ => true) }
      qd uid name (now - t0)).1, by rw [h1, hc], ?_,
    applyCorrect_first _ qd uid name (now - t0), ?_⟩
  · rw [h1, hc]
    show (applyCorrect _ qd uid name (now - t0)).2 = _
    rw [applyCorrect_out]
    simp [priorStreakOf_resetAll, priorPointsOf_resetAll]
  · rw [applyCorrect_lookup_self]
    simp [priorStreakOf_resetAll, priorPointsOf_resetAll]

/-- C9 witness: player 7, holding 50 points and a streak of 2 before the
timeout, answers correctly after the times-up announcement and is credited. -/
theorem C9_after_timeout_witness :
    (end_question_by_timeout (some timeoutQuiz) 0).2 = [Out.timesUp 6] ∧
    ∃ quiz2,
      (handle_text_answer (end_question_by_timeout (some timeoutQuiz) 0).1
          7 "eve" "6" 121).1 = some quiz2 ∧
      (handle_text_answer (end_question_by_timeout (some timeoutQuiz) 0).1
          7 "eve" "6" 121).2 =
        [Out.correctAnswer 7 "eve" 6 (score ((121 : ℚ) - 100) 0).1
          (priorPointsOf timeoutQuiz.scores 7 + (score ((121 : ℚ) - 100) 0).1)] ∧
      quiz2.first_answerer_id = some 7 ∧
      lookupScore quiz2.scores 7 =
        some ⟨priorPointsOf timeoutQuiz.scores 7 + (score ((121 : ℚ) - 100) 0).1,
          1, "eve"⟩ :=
  C9_correct_answer_accepted_after_timeout timeoutQuiz q6 0 7 "eve" "6" 121 100
    rfl rfl rfl rfl rfl (by decide)

/-- C10: in a private chat the admin capability check returns true for every
user, so any user — host or not — successfully stops an existing quiz: the
chat entry is removed from the registry and the stop announcement is sent. -/
theorem C10_private_chat_anyone_can_stop (qs : Quizzes) (gid uid : ℕ)
    (name : String) (ms : Option String) (quiz : Quiz) (hq : qs gid = some quiz) :
    _is_admin "private" ms = true ∧
    (stop_quiz qs gid uid name "private" ms).1 gid = none ∧
    (stop_quiz qs gid uid name "private" ms).2.head? =
      some (Out.stoppedBy name) := by
  have hadm : _is_admin "private" ms = true := by simp [_is_admin]
  refine ⟨hadm, ?_, ?_⟩
  · simp [stop_quiz, hq, hadm, Quizzes.set]
  · simp [stop_quiz, hq, hadm]

/-- C10 witness: user 99, who is not the host of the quiz of chat 0, stops
it in a private chat. -/
theorem C10_non_host_stops_witness :
    (stop_quiz stopReg 0 99 "zoe" "private" none).1 0 = none :=
  (C10_private_chat_anyone_can_stop stopReg 0 99 "zoe" none timeoutQuiz rfl).2.1

end MathQuizBot
